import Mathlib

/-!
A shallow embedding, in Lean 4, of the exoscale machine driver
(src/drivers/exoscale/exoscale.go) together with theorems checking the
natural-language specification of the driver against the code.

Strings are modelled as Lean `String` (a list of characters); Go string
helpers used by the driver (`strings.ToLower`, `strings.Contains`,
`strings.HasPrefix`, byte slicing of ASCII strings) are re-implemented on
character lists.  The Go ASCII case mapping suffices here because every
string the driver compares is ASCII.  Provider calls and filesystem calls
are modelled as oracle functions bundled in explicit world structures, and
each operation additionally returns the ordered list of provider/FS
requests it performed, so that claims about which requests happen (and in
which order) are statable.
-/

namespace Exoscale

/-- Lowercase of one character, as Go does for ASCII input. -/
def goCharToLower (c : Char) : Char := c.toLower

/-- Go `strings.ToLower`, restricted to ASCII (all strings compared by the
driver are ASCII). -/
def goToLower (s : String) : String := String.mk (s.toList.map goCharToLower)

/-- Does the second list start with the first one?  (Go `strings.HasPrefix`
on the underlying characters.) -/
def beginsWith : List Char → List Char → Bool
  | [], _ => true
  | _ :: _, [] => false
  | a :: as, b :: bs => a == b && beginsWith as bs

/-- Substring test on character lists. -/
def subList (needle : List Char) : List Char → Bool
  | [] => needle.isEmpty
  | c :: cs => beginsWith needle (c :: cs) || subList needle cs

/-- Go `strings.Contains`.  For valid UTF-8, byte-level substring search
agrees with character-level search, so this is faithful. -/
def goContains (s sub : String) : Bool := subList sub.toList s.toList

/-- Go `s[n:]` for ASCII `s` (drop the first `n` characters). -/
def goDrop (s : String) (n : Nat) : String := String.mk (s.toList.drop n)

/-- Go `filepath.Dir`, for the clean, slash-separated paths the driver
builds: everything up to (excluding) the final slash. -/
def pathDir (p : String) : String :=
  match (p.toList.reverse.dropWhile (fun c => c != '/')) with
  | [] => "."
  | _ :: rest => String.mk rest.reverse

/-- Errors as the driver observes them.  `errorResponse` is the
distinguishable egoscale API error class (`*egoscale.ErrorResponse`, the
"not found" class the driver tests for with a type assertion); `other` is
every other error (transport, IO, wrapped messages built with
`fmt.Errorf`). -/
inductive GoError
  | errorResponse (msg : String)
  | other (msg : String)
  deriving DecidableEq, Repr

/-- The message carried by an error (what `%s` formatting prints). -/
def GoError.message : GoError → String
  | .errorResponse m => m
  | .other m => m

/-- Modelled from the spec: the normalized host state enum
({Starting, Running, Stopped, Paused, Error, Unknown/None}); the generic
`libmachine/state` package lives outside src/. -/
inductive MachineState
  | None
  | Starting
  | Running
  | Stopped
  | Paused
  | Error
  deriving DecidableEq, Repr

/-- The fixed state table of `GetState` (the `switch vm.State` in the
source), in source order; unrecognized strings fall through to `None`. -/
def vmStateToMachineState (s : String) : MachineState :=
  if s = "Starting" then .Starting
  else if s = "Running" then .Running
  else if s = "Stopping" then .Running
  else if s = "Stopped" then .Stopped
  else if s = "Destroyed" then .Stopped
  else if s = "Expunging" then .Stopped
  else if s = "Migrating" then .Paused
  else if s = "Error" then .Error
  else if s = "Unknown" then .Error
  else if s = "Shutdowned" then .Stopped
  else .None

/-- `GetState`: fetch the VM (the oracle argument is the result of
`d.virtualMachine()`, carrying the provider-native state string on
success) and map its state through the fixed table; a fetch error yields
`(state.Error, err)`, and a successful fetch never yields an error. -/
def GetState (fetch : Except GoError String) : MachineState × Option GoError :=
  match fetch with
  | .error e => (.Error, some e)
  | .ok s => (vmStateToMachineState s, none)

/-- The substring → username table of `GetSSHUsername`, in source order. -/
def sshUserTable : List (String × String) :=
  [("ubuntu", "ubuntu"), ("centos", "centos"), ("redhat", "cloud-user"),
   ("fedora", "fedora"), ("coreos", "core"), ("debian", "debian")]

/-- `GetSSHUsername` from the source: if no SSH user is configured, derive
one from the lowercased image name by substring matching, in the fixed
source order, defaulting to "root"; otherwise return the configured
user. -/
def GetSSHUsername (sshUser image : String) : String :=
  if sshUser = "" then
    let name := goToLower image
    if goContains name "ubuntu" then "ubuntu"
    else if goContains name "centos" then "centos"
    else if goContains name "redhat" then "cloud-user"
    else if goContains name "fedora" then "fedora"
    else if goContains name "coreos" then "core"
    else if goContains name "debian" then "debian"
    else "root"
  else sshUser

/-- Go `net.JoinHostPort`: hosts containing a colon (IPv6 literals) are
bracketed. -/
def joinHostPort (host port : String) : String :=
  if goContains host ":" then "[" ++ host ++ "]:" ++ port
  else host ++ ":" ++ port

/-- Modelled from the spec: `drivers.MustBeRunning` (generic driver
helper outside src/) fails unless the host state is Running. -/
def mustBeRunningErr (s : MachineState) : Option GoError :=
  if s = MachineState.Running then none else some (.other "host is not running")

/-- Modelled from the spec: the base driver GetIP (outside src/) fails
when no IP address is recorded in the host record. -/
def getIPResult (ip : String) : Except GoError String :=
  if ip = "" then .error (.other "IP address is not set") else .ok ip

/-- `GetURL` from the source: require the running state, fetch the IP, and
produce a URL via `fmt.Sprintf("tcp://%s", net.JoinHostPort(ip, "2376"))`.
The state argument is the state a `GetState` query reports. -/
def GetURL (st : MachineState) (ip : String) : Except GoError String :=
  match mustBeRunningErr st with
  | some e => .error e
  | none =>
    match getIPResult ip with
    | .error e => .error e
    | .ok ip2 => .ok ("tcp://" ++ joinHostPort ip2 "2376")

/-- A provider zone as listed by `ListWithContext(&egoscale.Zone{Name})`.
UUIDs are modelled as naturals. -/
structure Zone where
  name : String
  id : Nat
  deriving DecidableEq, Repr, Inhabited

/-- A provider service offering (instance profile) as listed by
`ListWithContext(&egoscale.ServiceOffering{Name})`. -/
structure ServiceOffering where
  name : String
  id : Nat
  deriving DecidableEq, Repr, Inhabited

/-- The error `Create` produces when the zone list does not have exactly
one element (the fmt message saying the availability zone does not exist). -/
def zoneNotExistMsg (name : String) : String :=
  "Availability zone " ++ name ++ " doesn\u0027t exist"

/-- The error `Create` produces when the profile list does not have
exactly one element. -/
def profileNotFoundMsg (name : String) : String :=
  "Unable to find the " ++ name ++ " profile"

/-- Zone resolution inside `Create`: `if len(zones) != 1` fail, else take
`zones[0].ID`. -/
def resolveZone (name : String) (zones : List Zone) : Except GoError Nat :=
  match zones with
  | [z] => .ok z.id
  | _ => .error (.other (zoneNotExistMsg name))

/-- Profile resolution inside `Create`: `if len(profiles) != 1` fail, else
take `profiles[0].ID`. -/
def resolveProfile (name : String) (profiles : List ServiceOffering) : Except GoError Nat :=
  match profiles with
  | [p] => .ok p.id
  | _ => .error (.other (profileNotFoundMsg name))

/-- Is an except value a success? -/
def isOkB {α β : Type} : Except α β → Bool
  | .ok _ => true
  | .error _ => false

/-- A provider template as listed by
`ListWithContext(&egoscale.Template{IsFeatured, ZoneID})`.  `size` is the
storage size in bytes (Go `int64`, non-negative for real templates);
`id` is the nil-able UUID pointer; `details` is the template detail map
(carrying the optional default "username"). -/
structure Template where
  name : String
  size : Nat
  id : Option Nat
  details : List (String × String)
  deriving DecidableEq, Repr, Inhabited

/-- Characters of the Go regexp `\w` class (the `\b` word boundary is
ASCII-defined: `[0-9A-Za-z_]`). -/
def isWordChar (c : Char) : Bool := c.isAlphanum || c == '_'

/-- Characters matched by the `[0-9.]` class of the image-shorthand
regexp. -/
def isVerChar (c : Char) : Bool := c.isDigit || c == '.'

/-- Length of the maximal `[0-9.]` run at the head of the list. -/
def verRun : List Char → Nat
  | [] => 0
  | c :: cs => if isVerChar c then verRun cs + 1 else 0

/-- Is the character at index `i` a word character (out of range counts as
non-word)? -/
def wordAt (l : List Char) (i : Nat) : Bool :=
  match l.get? i with
  | some c => isWordChar c
  | none => false

/-- Does the regexp word boundary `\b` hold between positions `i-1` and
`i` of `l` (only used with `i ≥ 1`)? -/
def boundaryAt (l : List Char) (i : Nat) : Bool := wordAt l (i - 1) != wordAt l i

/-- Greedy-with-backtracking match of `[0-9.]+\b` at the head of `l`,
trying candidate lengths from `j` downwards: the longest length `1 ≤ k ≤ j`
(with `j` bounded by the maximal `[0-9.]` run) after which a word boundary
holds. -/
def tryVersionLen (l : List Char) : Nat → Option Nat
  | 0 => none
  | k + 1 => if boundaryAt l (k + 1) then some (k + 1) else tryVersionLen l k

/-- The length of the `[0-9.]+\b` match at the head of `l`, if any. -/
def versionLen (l : List Char) : Option Nat := tryVersionLen l (verRun l)

/-- The lazy `(?P<name>.+?) (?P<version>[0-9.]+)\b` scan: `acc` holds the
(reversed) name candidate consumed so far; at each space preceded by a
non-empty name candidate, try the version match on the rest; the first
split that succeeds wins (leftmost-first semantics of the Go regexp).  `.`
does not match a newline, so a newline ends the search. -/
def splitNameVersion (acc : List Char) : List Char → Option (List Char × List Char)
  | [] => none
  | c :: cs =>
    if c == '\n' then none
    else if c == ' ' && !acc.isEmpty then
      match versionLen cs with
      | some j => some (acc.reverse, cs.take j)
      | none => splitNameVersion (c :: acc) cs
    else splitNameVersion (c :: acc) cs

/-- The image shorthand of a template name, per the source regexp
`^Linux (?P<name>.+?) (?P<version>[0-9.]+)\b` followed by
`strings.Replace(strings.ToLower(name), " ", "-", -1)` and
`fmt.Sprintf("%s-%s", name, version)`. -/
def linuxShorthand (tname : String) : Option String :=
  let cs := tname.toList
  if cs.take 6 == "Linux ".toList then
    match splitNameVersion [] (cs.drop 6) with
    | some (nm, ver) =>
      some (String.mk ((nm.map goCharToLower).map (fun c => if c == ' ' then '-' else c))
            ++ "-" ++ String.mk ver)
    | none => none
  else none

/-- Does the shorthand of the template equal the (lowercased) requested image
name? -/
def templateShorthandMatches (image : String) (t : Template) : Bool :=
  match linuxShorthand t.name with
  | some sh => sh == image
  | none => false

/-- The template-selection loop of `Create`: walk the featured templates
in order, skip any whose `Size>>30` is not 10, and select the first whose
lowercased full name equals the lowercased requested image, or whose
shorthand does. -/
def findTemplate (image : String) : List Template → Option Template
  | [] => none
  | t :: ts =>
    if t.size >>> 30 != 10 then findTemplate image ts
    else if goToLower t.name == image then some t
    else if templateShorthandMatches image t then some t
    else findTemplate image ts

/-- The image-not-found error of `Create`
(`fmt.Errorf("Unable to find image %v", d.Image)`). -/
def imageNotFoundMsg (image : String) : String := "Unable to find image " ++ image

/-- Image resolution inside `Create`: run the selection loop on the
lowercased configured image name, then fail if no template was selected
(the seed template of the loop has a nil ID, and the source checks
`template.ID == nil` after the loop). -/
def resolveImage (dImage : String) (ts : List Template) : Except GoError Template :=
  match findTemplate (goToLower dImage) ts with
  | some t => if t.id.isSome then .ok t else .error (.other (imageNotFoundMsg dImage))
  | none => .error (.other (imageNotFoundMsg dImage))

/-- One ingress rule request (`egoscale.AuthorizeSecurityGroupIngress`)
with exactly the fields the source sets; unset Go fields keep their zero
values.  CIDRs are kept as strings; `userSecurityGroupList` holds the IDs
of referenced groups (`sg.UserSecurityGroup()` references the group
itself). -/
structure IngressRule where
  securityGroupID : Nat
  description : String
  cidrList : List String := []
  protocol : String
  startPort : Nat := 0
  endPort : Nat := 0
  icmpType : Nat := 0
  icmpCode : Nat := 0
  userSecurityGroupList : List Nat := []
  deriving DecidableEq, Repr

/-- The deployment request (`egoscale.DeployVirtualMachine`) with the
fields the source fills. -/
structure DeployReq where
  details : List (String × String)
  templateID : Option Nat
  serviceOfferingID : Nat
  userData : String
  zoneID : Nat
  name : String
  keyPair : String
  displayName : String
  rootDiskSize : Nat
  securityGroupIDs : List Nat
  affinityGroupIDs : List Nat
  deriving DecidableEq, Repr

/-- The VM record a successful deployment returns (the fields the source
reads). -/
structure DeployedVM where
  id : Option Nat
  ip : Option String
  passwordEnabled : Bool
  password : String
  deriving DecidableEq, Repr

/-- Provider / filesystem requests the driver can issue, in the order it
issues them.  The two group-deletion events are never produced by any
modelled operation; they make "groups are never removed" statable. -/
inductive Event
  | listZones (name : String)
  | listTemplates (zoneID : Nat)
  | listProfiles (name : String)
  | getSecurityGroup (name : String)
  | createSecurityGroup (name : String) (description : String)
  | authorizeIngress (rule : IngressRule)
  | getAffinityGroup (name : String)
  | createAffinityGroup (name : String) (agType : String) (description : String)
  | createSSHKeyPair (name : String)
  | mkdirAll (path : String) (mode : Nat)
  | writeFile (path : String) (mode : Nat)
  | readFile (path : String)
  | copyFile (src : String) (dst : String)
  | chmod (path : String) (mode : Nat)
  | deployVirtualMachine (req : DeployReq)
  | waitForSSH
  | deleteSSHKeyPair (name : String)
  | deleteVirtualMachine (id : Nat)
  | deleteSecurityGroup (name : String)
  | deleteAffinityGroup (name : String)
  deriving DecidableEq, Repr

/-- The provider and filesystem, as oracles: each field gives the response
the corresponding call would return. -/
structure CreateWorld where
  listZones : String → Except GoError (List Zone)
  listTemplates : Nat → Except GoError (List Template)
  listProfiles : String → Except GoError (List ServiceOffering)
  getSecurityGroup : String → Except GoError Nat
  createSecurityGroup : String → String → Except GoError Nat
  authorizeIngress : IngressRule → Option GoError
  getAffinityGroup : String → Except GoError Nat
  createAffinityGroup : String → String → String → Except GoError Nat
  createSSHKeyPair : String → Except GoError String
  mkdirAll : String → Nat → Option GoError
  writeFile : String → String → Nat → Option GoError
  readFile : String → Except GoError String
  absPath : String → Except GoError String
  homeDir : String
  copyFile : String → String → Option GoError
  chmod : String → Nat → Option GoError
  deploy : DeployReq → Except GoError DeployedVM
  waitForSSH : Option GoError
  deleteSSHKeyPair : String → Option GoError

/-- The persisted driver record (the fields of `Driver` the lifecycle
calls read and write). -/
structure Driver where
  machineName : String
  storePath : String
  image : String
  availabilityZone : String
  instanceProfile : String
  diskSize : Nat
  securityGroups : List String
  affinityGroups : List String
  sshUser : String
  sshKey : String
  keyPair : String
  userDataFile : String
  userData : String
  ipAddress : String
  password : String
  id : Option Nat
  deriving DecidableEq, Repr

/-- The description all created groups carry. -/
def createdByDescription : String := "created by docker-machine"

/-- The fixed affinity-group policy type (`defaultAffinityGroupType`). -/
def defaultAffinityGroupType : String := "host anti-affinity"

/-- The two any-address CIDRs (`cidrList` in the source). -/
def anyCIDRs : List String := ["0.0.0.0/0", "::/0"]

/-- The eight default ingress rules of `createDefaultSecurityGroup`, in
source order, for a freshly created group with ID `gid`. -/
def defaultSecurityGroupRules (gid : Nat) : List IngressRule :=
  [ { securityGroupID := gid, description := "SSH", cidrList := anyCIDRs,
      protocol := "TCP", startPort := 22, endPort := 22 },
    { securityGroupID := gid, description := "Ping", cidrList := ["0.0.0.0/0"],
      protocol := "ICMP", icmpType := 8, icmpCode := 0 },
    { securityGroupID := gid, description := "Ping6", cidrList := ["::/0"],
      protocol := "ICMPv6", icmpType := 128, icmpCode := 0 },
    { securityGroupID := gid, description := "Docker", cidrList := anyCIDRs,
      protocol := "TCP", startPort := 2376, endPort := 2377 },
    { securityGroupID := gid, description := "Legacy Standalone Swarm", cidrList := anyCIDRs,
      protocol := "TCP", startPort := 3376, endPort := 3377 },
    { securityGroupID := gid, description := "Communication among nodes",
      protocol := "TCP", startPort := 7946, endPort := 7946, userSecurityGroupList := [gid] },
    { securityGroupID := gid, description := "Communication among nodes",
      protocol := "UDP", startPort := 7946, endPort := 7946, userSecurityGroupList := [gid] },
    { securityGroupID := gid, description := "Overlay network traffic",
      protocol := "UDP", startPort := 4789, endPort := 4789, userSecurityGroupList := [gid] } ]

/-- The rule-submission loop of `createDefaultSecurityGroup`: one request
per rule, in order; the first failing request aborts the rest. -/
def submitRules (w : CreateWorld) : List IngressRule → Option GoError × List Event
  | [] => (none, [])
  | r :: rs =>
    match w.authorizeIngress r with
    | some e => (some e, [Event.authorizeIngress r])
    | none =>
      match submitRules w rs with
      | (res, evs) => (res, Event.authorizeIngress r :: evs)

/-- `createDefaultSecurityGroup` from the source: create the group (with
the fixed description), then submit the eight default rules one by one;
any failure propagates. -/
def createDefaultSecurityGroup (w : CreateWorld) (group : String) :
    Except GoError Nat × List Event :=
  match w.createSecurityGroup group createdByDescription with
  | .error e => (.error e, [Event.createSecurityGroup group createdByDescription])
  | .ok gid =>
    match submitRules w (defaultSecurityGroupRules gid) with
    | (some e, evs) => (.error e, Event.createSecurityGroup group createdByDescription :: evs)
    | (none, evs) => (.ok gid, Event.createSecurityGroup group createdByDescription :: evs)

/-- The security-group loop of `Create`: for each name in order, skip it
if empty; look the group up; on an `ErrorResponse` lookup error create the
default group and use its ID; on any other lookup error return that error
(`return errGet`); collect the IDs in input order. -/
def resolveSecurityGroups (w : CreateWorld) : List String → Except GoError (List Nat) × List Event
  | [] => (.ok [], [])
  | g :: gs =>
    if g == "" then resolveSecurityGroups w gs
    else
      match w.getSecurityGroup g with
      | .ok gid =>
        match resolveSecurityGroups w gs with
        | (.ok ids, evs) => (.ok (gid :: ids), Event.getSecurityGroup g :: evs)
        | (.error e, evs) => (.error e, Event.getSecurityGroup g :: evs)
      | .error (.errorResponse _) =>
        match createDefaultSecurityGroup w g with
        | (.error ce, evs) => (.error ce, Event.getSecurityGroup g :: evs)
        | (.ok gid, evs) =>
          match resolveSecurityGroups w gs with
          | (.ok ids, evs2) => (.ok (gid :: ids), (Event.getSecurityGroup g :: evs) ++ evs2)
          | (.error e, evs2) => (.error e, (Event.getSecurityGroup g :: evs) ++ evs2)
      | .error (.other msg) => (.error (.other msg), [Event.getSecurityGroup g])

/-- `createDefaultAffinityGroup` from the source: one creation request
with the fixed "host anti-affinity" type and the fixed description, and no
rule requests. -/
def createDefaultAffinityGroup (w : CreateWorld) (group : String) :
    Except GoError Nat × List Event :=
  match w.createAffinityGroup group defaultAffinityGroupType createdByDescription with
  | .error e =>
    (.error e, [Event.createAffinityGroup group defaultAffinityGroupType createdByDescription])
  | .ok gid =>
    (.ok gid, [Event.createAffinityGroup group defaultAffinityGroupType createdByDescription])

/-- How the affinity-group loop leaves `Create`: either the collected IDs,
or an early `return` of the given error value (`none` models the Go `nil`
error, i.e. `Create` reports success while stopping). -/
inductive AGOutcome
  | ok (ids : List Nat)
  | earlyReturn (e : Option GoError)
  deriving DecidableEq, Repr

/-- The affinity-group loop of `Create`.  It mirrors the security-group
loop, with one deviation present in the source: on a lookup error that is
not an `ErrorResponse` the source executes `return err` — the stale outer
`err` variable (the profile-listing error, necessarily nil at this point,
passed here as `staleErr`) — instead of `return errGet`. -/
def resolveAffinityGroups (w : CreateWorld) (staleErr : Option GoError) :
    List String → AGOutcome × List Event
  | [] => (.ok [], [])
  | g :: gs =>
    if g == "" then resolveAffinityGroups w staleErr gs
    else
      match w.getAffinityGroup g with
      | .ok gid =>
        match resolveAffinityGroups w staleErr gs with
        | (.ok ids, evs) => (.ok (gid :: ids), Event.getAffinityGroup g :: evs)
        | (out, evs) => (out, Event.getAffinityGroup g :: evs)
      | .error (.errorResponse _) =>
        match createDefaultAffinityGroup w g with
        | (.error ce, evs) => (.earlyReturn (some ce), Event.getAffinityGroup g :: evs)
        | (.ok gid, evs) =>
          match resolveAffinityGroups w staleErr gs with
          | (.ok ids, evs2) => (.ok (gid :: ids), (Event.getAffinityGroup g :: evs) ++ evs2)
          | (out, evs2) => (out, (Event.getAffinityGroup g :: evs) ++ evs2)
      | .error (.other _) => (.earlyReturn staleErr, [Event.getAffinityGroup g])

/-- Modelled from the spec: the fixed per-host SSH key path in the local
store (`d.GetSSHKeyPath()` of the generic base driver, outside src/). -/
def getSSHKeyPath (storePath machineName : String) : String :=
  storePath ++ "/machines/" ++ machineName ++ "/id_rsa"

/-- The raw string the source appends before the public key
(a newline, the `ssh_authorized_keys:` header, and a list-entry dash). -/
def sshAuthorizedKeysBlock : String := "\nssh_authorized_keys:\n- "

/-- The SSH credential step of `Create`.  With no configured key path,
request a provider key pair named `docker-machine-<name>`, store the
returned private key at the per-host path (directory mode 0750, file mode
0600) and remember the key-pair name.  With a configured key path, expand
a leading `~/` to the home directory or make the path absolute, read the
matching `.pub` file, append it to the cloud-init payload under an
`ssh_authorized_keys` entry, copy the private key to the per-host path and
chmod it to 0600; the key-pair name is left untouched.  Returns the
updated driver and cloud-init payload. -/
def sshCredentialStep (w : CreateWorld) (d : Driver) (cloudInit : String) :
    Except GoError (Driver × String) × List Event :=
  if d.sshKey == "" then
    let keyPairName := "docker-machine-" ++ d.machineName
    match w.createSSHKeyPair keyPairName with
    | .error e =>
      (.error (.other ("SSH Key pair creation failed " ++ e.message)),
       [Event.createSSHKeyPair keyPairName])
    | .ok privateKey =>
      let keyPath := getSSHKeyPath d.storePath d.machineName
      match w.mkdirAll (pathDir keyPath) 0o750 with
      | some e =>
        (.error (.other ("Cannot create the folder to store the SSH private key. " ++ e.message)),
         [Event.createSSHKeyPair keyPairName, Event.mkdirAll (pathDir keyPath) 0o750])
      | none =>
        match w.writeFile keyPath privateKey 0o600 with
        | some e =>
          (.error (.other ("SSH private key could not be written. " ++ e.message)),
           [Event.createSSHKeyPair keyPairName, Event.mkdirAll (pathDir keyPath) 0o750,
            Event.writeFile keyPath 0o600])
        | none =>
          (.ok ({ d with keyPair := keyPairName }, cloudInit),
           [Event.createSSHKeyPair keyPairName, Event.mkdirAll (pathDir keyPath) 0o750,
            Event.writeFile keyPath 0o600])
  else
    let pathRes : Except GoError String :=
      if beginsWith "~/".toList d.sshKey.toList then
        .ok (w.homeDir ++ "/" ++ goDrop d.sshKey 2)
      else w.absPath d.sshKey
    match pathRes with
    | .error e => (.error e, [])
    | .ok sshKeyPath =>
      match w.readFile (sshKeyPath ++ ".pub") with
      | .error e =>
        (.error (.other ("Cannot read SSH public key " ++ e.message)),
         [Event.readFile (sshKeyPath ++ ".pub")])
      | .ok pubKey =>
        let cloudInit2 := cloudInit ++ sshAuthorizedKeysBlock ++ pubKey
        let keyPath := getSSHKeyPath d.storePath d.machineName
        match w.copyFile sshKeyPath keyPath with
        | some e =>
          (.error (.other ("Unable to copy SSH file: " ++ e.message)),
           [Event.readFile (sshKeyPath ++ ".pub"), Event.copyFile sshKeyPath keyPath])
        | none =>
          match w.chmod keyPath 0o600 with
          | some e =>
            (.error (.other ("Unable to set permissions on the SSH file: " ++ e.message)),
             [Event.readFile (sshKeyPath ++ ".pub"), Event.copyFile sshKeyPath keyPath,
              Event.chmod keyPath 0o600])
          | none =>
            (.ok (d, cloudInit2),
             [Event.readFile (sshKeyPath ++ ".pub"), Event.copyFile sshKeyPath keyPath,
              Event.chmod keyPath 0o600])

/-- The post-deployment cleanup of `Create`: if a key-pair name is
tracked, block for SSH reachability, delete the provider-side key pair and
clear the tracked name; otherwise do nothing. -/
def postCreateKeyPairCleanup (w : CreateWorld) (d : Driver) :
    Option GoError × Driver × List Event :=
  if d.keyPair == "" then (none, d, [])
  else
    match w.waitForSSH with
    | some e => (some e, d, [Event.waitForSSH])
    | none =>
      match w.deleteSSHKeyPair d.keyPair with
      | some e => (some e, d, [Event.waitForSSH, Event.deleteSSHKeyPair d.keyPair])
      | none => (none, { d with keyPair := "" },
                 [Event.waitForSSH, Event.deleteSSHKeyPair d.keyPair])

/-- The standard base64 alphabet. -/
def base64Table : List Char :=
  "ABCDEFGHIJKLMNOPQRSTUVWXYZabcdefghijklmnopqrstuvwxyz0123456789+/".toList

/-- The base64 digit for a 6-bit value. -/
def b64Char (n : Nat) : Char := base64Table.getD n '='

/-- Standard (padded) base64 of a byte list, as
`base64.StdEncoding.EncodeToString` produces. -/
def base64EncodeBytes : List Nat → List Char
  | [] => []
  | [a] => [b64Char (a / 4), b64Char (a % 4 * 16), '=', '=']
  | [a, b] => [b64Char (a / 4), b64Char (a % 4 * 16 + b / 16), b64Char (b % 16 * 4), '=']
  | a :: b :: c :: rest =>
    b64Char (a / 4) :: b64Char (a % 4 * 16 + b / 16) :: b64Char (b % 16 * 4 + c / 64)
      :: b64Char (c % 64) :: base64EncodeBytes rest

/-- The UTF-8 bytes of one character (standard encoding of its code
point). -/
def utf8CharBytes (c : Char) : List Nat :=
  let n := c.toNat
  if n < 0x80 then [n]
  else if n < 0x800 then [0xC0 + n / 64, 0x80 + n % 64]
  else if n < 0x10000 then [0xE0 + n / 4096, 0x80 + n / 64 % 64, 0x80 + n % 64]
  else [0xF0 + n / 262144, 0x80 + n / 4096 % 64, 0x80 + n / 64 % 64, 0x80 + n % 64]

/-- The UTF-8 bytes of a string. -/
def utf8Bytes (s : String) : List Nat := (s.toList.map utf8CharBytes).flatten

/-- Base64 of the UTF-8 bytes of a string. -/
def base64Encode (s : String) : String :=
  String.mk (base64EncodeBytes (utf8Bytes s))

/-- The embedded minimal default cloud-init payload
(`defaultCloudInit`), assigned to `d.UserData` by flag loading. -/
def defaultCloudInit : String := "#cloud-config\nmanage_etc_hosts: localhost\n"

/-- `getCloudInit` from the source: with a configured user-data file, read
it into `d.UserData` (on a read error the field becomes the nil slice and
the error propagates); otherwise keep the current `d.UserData`. -/
def getCloudInit (w : CreateWorld) (d : Driver) :
    Except GoError (Driver × String) × List Event :=
  if d.userDataFile == "" then (.ok (d, d.userData), [])
  else
    match w.readFile d.userDataFile with
    | .error e => (.error e, [Event.readFile d.userDataFile])
    | .ok content => (.ok ({ d with userData := content }, content), [Event.readFile d.userDataFile])

/-- The deployment request and post-deployment section of `Create`:
submit the request; on success record the primary address (if any), the
VM ID and the optional one-time password, then run the key-pair cleanup.
Returns the error value, the final driver and the requests made by this
section. -/
def deployAndCleanup (w : CreateWorld) (d4 : Driver) (req : DeployReq) :
    Option GoError × Driver × List Event :=
  match w.deploy req with
  | .error e => (some e, d4, [Event.deployVirtualMachine req])
  | .ok vm =>
    let d5 := match vm.ip with
              | some ip => { d4 with ipAddress := ip }
              | none => d4
    let d6 := { d5 with id := vm.id }
    let d7 := if vm.passwordEnabled then { d6 with password := vm.password } else d6
    let post := postCreateKeyPairCleanup w d7
    (post.1, post.2.1, Event.deployVirtualMachine req :: post.2.2)

/-- `Create` from the source, as the sequential composition of its steps:
cloud-init loading, zone listing and resolution, featured-template listing
and image resolution (with the template-username override of
`d.SSHUser`), profile listing and resolution, security-group resolution,
affinity-group resolution (whose early `return err` surfaces as an
`AGOutcome.earlyReturn`), the SSH credential step, the deployment request
(recording `d.UserData`, the returned VM ID, IP and optional one-time
password), and the key-pair cleanup.  Returns the error value `Create`
returns (`none` = nil), the final driver record and the ordered request
trace. -/
def Create (w : CreateWorld) (d0 : Driver) : Option GoError × Driver × List Event :=
  match getCloudInit w d0 with
  | (.error e, evs) => (some e, { d0 with userData := "" }, evs)
  | (.ok (d1, cloudInit0), evs0) =>
    match w.listZones d1.availabilityZone with
    | .error e => (some e, d1, evs0 ++ [Event.listZones d1.availabilityZone])
    | .ok zones =>
      let evs1 := evs0 ++ [Event.listZones d1.availabilityZone]
      match resolveZone d1.availabilityZone zones with
      | .error e => (some e, d1, evs1)
      | .ok zoneID =>
        match w.listTemplates zoneID with
        | .error e => (some e, d1, evs1 ++ [Event.listTemplates zoneID])
        | .ok templates =>
          let evs2 := evs1 ++ [Event.listTemplates zoneID]
          match resolveImage d1.image templates with
          | .error e => (some e, d1, evs2)
          | .ok tpl =>
            let d2 := match tpl.details.lookup "username" with
                      | some u => { d1 with sshUser := u }
                      | none => d1
            match w.listProfiles d2.instanceProfile with
            | .error e => (some e, d2, evs2 ++ [Event.listProfiles d2.instanceProfile])
            | .ok profiles =>
              let evs3 := evs2 ++ [Event.listProfiles d2.instanceProfile]
              match resolveProfile d2.instanceProfile profiles with
              | .error e => (some e, d2, evs3)
              | .ok profileID =>
                match resolveSecurityGroups w d2.securityGroups with
                | (.error e, sgEvs) => (some e, d2, evs3 ++ sgEvs)
                | (.ok sgs, sgEvs) =>
                  let evs4 := evs3 ++ sgEvs
                  match resolveAffinityGroups w none d2.affinityGroups with
                  | (.earlyReturn e, agEvs) => (e, d2, evs4 ++ agEvs)
                  | (.ok ags, agEvs) =>
                    let evs5 := evs4 ++ agEvs
                    match sshCredentialStep w d2 cloudInit0 with
                    | (.error e, sshEvs) => (some e, d2, evs5 ++ sshEvs)
                    | (.ok (d3, cloudInit1), sshEvs) =>
                      let evs6 := evs5 ++ sshEvs
                      let d4 := { d3 with userData := cloudInit1 }
                      let req : DeployReq :=
                        { details := [("ip6", "true")],
                          templateID := tpl.id,
                          serviceOfferingID := profileID,
                          userData := base64Encode cloudInit1,
                          zoneID := zoneID,
                          name := d4.machineName,
                          keyPair := d4.keyPair,
                          displayName := d4.machineName,
                          rootDiskSize := d4.diskSize,
                          securityGroupIDs := sgs,
                          affinityGroupIDs := ags }
                      let res := deployAndCleanup w d4 req
                      (res.1, res.2.1, evs6 ++ res.2.2)

/-- The provider calls `Remove` can make. -/
structure RemoveWorld where
  deleteSSHKeyPair : String → Option GoError
  deleteVirtualMachine : Nat → Option GoError

/-- `Remove` from the source: delete the tracked SSH key pair first (a
failure returns immediately), then delete the VM if an ID is recorded;
security and affinity groups are left alone (the source only logs a
warning about them). -/
def Remove (w : RemoveWorld) (d : Driver) : Option GoError × List Event :=
  match (if d.keyPair == "" then (none, ([] : List Event))
         else
           match w.deleteSSHKeyPair d.keyPair with
           | some e => (some e, [Event.deleteSSHKeyPair d.keyPair])
           | none => (none, [Event.deleteSSHKeyPair d.keyPair])) with
  | (some e, evs) => (some e, evs)
  | (none, evs) =>
    match d.id with
    | none => (none, evs)
    | some vid =>
      match w.deleteVirtualMachine vid with
      | some e => (some e, evs ++ [Event.deleteVirtualMachine vid])
      | none => (none, evs ++ [Event.deleteVirtualMachine vid])

/-! ### Concrete fixtures used by witnesses and counterexamples -/

/-- A featured 10 GiB Ubuntu template. -/
def ubuntuTemplate : Template :=
  { name := "Linux Ubuntu 18.04 LTS 64-bit", size := 10 * 2 ^ 30, id := some 42, details := [] }

/-- A benign world in which every provider and filesystem call succeeds. -/
def stubWorld : CreateWorld :=
  { listZones := fun _ => .ok [⟨"CH-DK-2", 1⟩],
    listTemplates := fun _ => .ok [ubuntuTemplate],
    listProfiles := fun _ => .ok [⟨"Small", 2⟩],
    getSecurityGroup := fun _ => .ok 10,
    createSecurityGroup := fun _ _ => .ok 11,
    authorizeIngress := fun _ => none,
    getAffinityGroup := fun _ => .ok 20,
    createAffinityGroup := fun _ _ _ => .ok 21,
    createSSHKeyPair := fun _ => .ok "PRIVATE-KEY",
    mkdirAll := fun _ _ => none,
    writeFile := fun _ _ _ => none,
    readFile := fun _ => .ok "FILE-CONTENT",
    absPath := fun p => .ok ("/cwd/" ++ p),
    homeDir := "/home/u",
    copyFile := fun _ _ => none,
    chmod := fun _ _ => none,
    deploy := fun _ => .ok { id := some 99, ip := some "185.1.2.3", passwordEnabled := false, password := "" },
    waitForSSH := none,
    deleteSSHKeyPair := fun _ => none }

/-- A freshly configured driver record, as flag loading leaves it. -/
def baseDriver : Driver :=
  { machineName := "mach", storePath := "/store",
    image := "Linux Ubuntu 18.04 LTS 64-bit", availabilityZone := "CH-DK-2",
    instanceProfile := "Small", diskSize := 50,
    securityGroups := [], affinityGroups := [],
    sshUser := "", sshKey := "", keyPair := "", userDataFile := "",
    userData := defaultCloudInit, ipAddress := "", password := "", id := none }

/-! ### Claim C6 — the GetState mapping table -/

/-- The provider-native state strings the switch in the source recognizes. -/
def knownVMStates : List String :=
  ["Starting", "Running", "Stopping", "Stopped", "Destroyed",
   "Expunging", "Migrating", "Error", "Unknown", "Shutdowned"]

/-- C6: GetState maps the provider-native VM state string through a fixed
total table: "Stopping" to Running; "Destroyed", "Expunging" and
"Shutdowned" to Stopped; "Migrating" to Paused; "Error" and "Unknown" to
Error; "Starting", "Running", "Stopped" to their namesakes; every
unrecognized string to None; and a successful fetch never produces an
error. -/
theorem getState_fixed_table :
    vmStateToMachineState "Stopping" = .Running
  ∧ vmStateToMachineState "Destroyed" = .Stopped
  ∧ vmStateToMachineState "Expunging" = .Stopped
  ∧ vmStateToMachineState "Shutdowned" = .Stopped
  ∧ vmStateToMachineState "Migrating" = .Paused
  ∧ vmStateToMachineState "Error" = .Error
  ∧ vmStateToMachineState "Unknown" = .Error
  ∧ vmStateToMachineState "Starting" = .Starting
  ∧ vmStateToMachineState "Running" = .Running
  ∧ vmStateToMachineState "Stopped" = .Stopped
  ∧ (∀ s : String, s ∈ knownVMStates ∨ vmStateToMachineState s = .None)
  ∧ (∀ s : String, (GetState (.ok s)).2 = none) := by
  refine ⟨rfl, rfl, rfl, rfl, rfl, rfl, rfl, rfl, rfl, rfl, ?_, fun s => rfl⟩
  intro s
  unfold vmStateToMachineState
  by_cases h1 : s = "Starting"; · simp [knownVMStates, h1]
  by_cases h2 : s = "Running"; · simp [knownVMStates, h2]
  by_cases h3 : s = "Stopping"; · simp [knownVMStates, h3]
  by_cases h4 : s = "Stopped"; · simp [knownVMStates, h4]
  by_cases h5 : s = "Destroyed"; · simp [knownVMStates, h5]
  by_cases h6 : s = "Expunging"; · simp [knownVMStates, h6]
  by_cases h7 : s = "Migrating"; · simp [knownVMStates, h7]
  by_cases h8 : s = "Error"; · simp [knownVMStates, h8]
  by_cases h9 : s = "Unknown"; · simp [knownVMStates, h9]
  by_cases h10 : s = "Shutdowned"; · simp [knownVMStates, h10]
  right
  simp [h1, h2, h3, h4, h5, h6, h7, h8, h9, h10]

/-! ### Claim C10 — the GetSSHUsername derivation -/

/-- C10: when no SSH user is configured, the username is derived from the
lowercased image name by first match in the fixed substring table
(ubuntu, centos, redhat → cloud-user, fedora, coreos → core, debian),
defaulting to "root"; a configured SSH user is returned unchanged. -/
theorem getSSHUsername_table (sshUser image : String) :
    GetSSHUsername sshUser image =
      if sshUser = "" then
        (((sshUserTable.find? (fun p => goContains (goToLower image) p.1)).map Prod.snd).getD "root")
      else sshUser := by
  unfold GetSSHUsername sshUserTable
  by_cases h : sshUser = ""
  · simp only [h, if_true]
    by_cases h1 : goContains (goToLower image) "ubuntu" <;>
      by_cases h2 : goContains (goToLower image) "centos" <;>
        by_cases h3 : goContains (goToLower image) "redhat" <;>
          by_cases h4 : goContains (goToLower image) "fedora" <;>
            by_cases h5 : goContains (goToLower image) "coreos" <;>
              by_cases h6 : goContains (goToLower image) "debian" <;>
                simp [List.find?, h1, h2, h3, h4, h5, h6]
  · simp [h]

/-! ### Claim C9 — GetURL -/

/-- C9 counterexample: for a running host whose recorded IP is an IPv6
literal, GetURL returns the bracketed form produced by
`net.JoinHostPort`, not the literal string `tcp://<ip>:2376`; the claim
fails at ip = "2001:db8::1". -/
theorem getURL_ipv6_counterexample :
    GetURL .Running "2001:db8::1" = .ok "tcp://[2001:db8::1]:2376"
  ∧ "tcp://[2001:db8::1]:2376" ≠ "tcp://2001:db8::1:2376" :=
  ⟨rfl, by decide⟩

/-- C9 amended: GetURL errors whenever the host is not running (and when
the IP is unknown); for a running host with a known IP it returns
`"tcp://" ++ joinHostPort ip "2376"`, which is `tcp://<ip>:2376` exactly
when the IP contains no colon (and `tcp://[<ip>]:2376` for IPv6
literals). -/
theorem getURL_spec (st : MachineState) (ip : String) :
    (st ≠ .Running → GetURL st ip = .error (.other "host is not running"))
  ∧ (GetURL .Running "" = .error (.other "IP address is not set"))
  ∧ (ip ≠ "" → GetURL .Running ip = .ok ("tcp://" ++ joinHostPort ip "2376"))
  ∧ (ip ≠ "" → goContains ip ":" = false →
      GetURL .Running ip = .ok ("tcp://" ++ ip ++ ":2376")) := by
  refine ⟨fun h => ?_, rfl, fun h => ?_, fun h hc => ?_⟩
  · unfold GetURL mustBeRunningErr
    simp [h]
  · unfold GetURL mustBeRunningErr getIPResult
    simp [h]
  · unfold GetURL mustBeRunningErr getIPResult joinHostPort
    simp [h, hc, String.append_assoc]

/-- C9 witness: the amended statement at a concrete non-running state and
at a concrete running IPv4 host. -/
theorem getURL_spec_witness :
    GetURL .Stopped "10.1.2.3" = .error (.other "host is not running")
  ∧ GetURL .Running "10.1.2.3" = .ok "tcp://10.1.2.3:2376" :=
  ⟨(getURL_spec .Stopped "10.1.2.3").1 (by decide),
   (getURL_spec .Running "10.1.2.3").2.2.2 (by decide) (by decide)⟩

/-! ### Claim C3 — zone and profile lookups -/

/-- C3 counterexample: an ambiguous zone lookup (two matches) and an
ambiguous profile lookup fail with exactly the same not-found-worded
error as the empty lookup — the code produces no distinct Ambiguous
error class, refuting the claimed NotFound/Ambiguous distinction. -/
theorem lookup_ambiguous_counterexample :
    resolveZone "CH-DK-2" [⟨"ch-dk-2a", 1⟩, ⟨"ch-dk-2b", 2⟩]
      = .error (.other (zoneNotExistMsg "CH-DK-2"))
  ∧ resolveZone "CH-DK-2" [⟨"ch-dk-2a", 1⟩, ⟨"ch-dk-2b", 2⟩]
      = resolveZone "CH-DK-2" []
  ∧ resolveProfile "Small" [⟨"Small", 3⟩, ⟨"Small", 4⟩]
      = .error (.other (profileNotFoundMsg "Small"))
  ∧ resolveProfile "Small" [⟨"Small", 3⟩, ⟨"Small", 4⟩]
      = resolveProfile "Small" [] :=
  ⟨rfl, rfl, rfl, rfl⟩

/-- C3 amended: every zone lookup and every instance-profile lookup in
Create succeeds exactly when the filtered list has exactly one element
(whose ID is returned), and fails otherwise — for zero matches and for
several matches alike — with one uniform zone-does-not-exist (resp.
profile-not-found) error; it never silently picks one of several
matches. -/
theorem lookup_exactly_one (zname pname : String)
    (zs : List Zone) (ps : List ServiceOffering) :
    (isOkB (resolveZone zname zs) = decide (zs.length = 1))
  ∧ (isOkB (resolveProfile pname ps) = decide (ps.length = 1))
  ∧ (∀ i, resolveZone zname zs = .ok i → ∃ z, zs = [z] ∧ z.id = i)
  ∧ (∀ i, resolveProfile pname ps = .ok i → ∃ p, ps = [p] ∧ p.id = i)
  ∧ (zs.length ≠ 1 → resolveZone zname zs = .error (.other (zoneNotExistMsg zname)))
  ∧ (ps.length ≠ 1 → resolveProfile pname ps = .error (.other (profileNotFoundMsg pname))) := by
  refine ⟨?_, ?_, ?_, ?_, ?_, ?_⟩
  · match zs with
    | [] => rfl
    | [z] => rfl
    | z1 :: z2 :: rest => rfl
  · match ps with
    | [] => rfl
    | [p] => rfl
    | p1 :: p2 :: rest => rfl
  · intro i h
    match zs with
    | [] => exact absurd h (by simp [resolveZone])
    | [z] => exact ⟨z, rfl, by simpa [resolveZone] using h⟩
    | z1 :: z2 :: rest => exact absurd h (by simp [resolveZone])
  · intro i h
    match ps with
    | [] => exact absurd h (by simp [resolveProfile])
    | [p] => exact ⟨p, rfl, by simpa [resolveProfile] using h⟩
    | p1 :: p2 :: rest => exact absurd h (by simp [resolveProfile])
  · intro h
    match zs with
    | [] => rfl
    | [z] => exact absurd rfl h
    | z1 :: z2 :: rest => rfl
  · intro h
    match ps with
    | [] => rfl
    | [p] => exact absurd rfl h
    | p1 :: p2 :: rest => rfl

/-- C3 witness: the amended statement evaluated at a unique zone match and
at an empty profile list. -/
theorem lookup_exactly_one_witness :
    resolveZone "CH-DK-2" [⟨"ch-dk-2", 7⟩] = .ok 7
  ∧ resolveProfile "Small" [] = .error (.other (profileNotFoundMsg "Small")) := by
  have h := lookup_exactly_one "CH-DK-2" "Small" [⟨"ch-dk-2", 7⟩] []
  exact ⟨by
    rcases h.2.2.1 7 rfl with ⟨z, hz, hid⟩
    exact rfl,
    h.2.2.2.2.2 (by decide)⟩

/-! ### Claim C1 — image resolution -/

/-- The template filter-and-match predicate the selection loop realizes:
the storage size shifted right by 30 bits equals 10, and either the
lowercased full name or the derived shorthand equals the lowercased
requested image. -/
def imageMatches (image : String) (t : Template) : Bool :=
  (t.size >>> 30 == 10)
  && (goToLower t.name == image || templateShorthandMatches image t)

/-- The selection loop picks exactly the first template satisfying
`imageMatches`. -/
theorem findTemplate_eq_find (image : String) (ts : List Template) :
    findTemplate image ts = ts.find? (imageMatches image) := by
  induction ts with
  | nil => rfl
  | cons t ts ih =>
    unfold findTemplate
    by_cases h1 : (t.size >>> 30 == 10) = true <;>
      by_cases h2 : (goToLower t.name == image) = true <;>
        by_cases h3 : templateShorthandMatches image t = true <;>
          simp [List.find?, imageMatches, bne, h1, h2, h3, ih]

/-- C1 counterexample: the code keeps (and selects) a template whose
storage size is not exactly 10 GiB — any size in [10 GiB, 11 GiB) passes
the `Size>>30 != 10` filter — so image resolution succeeds where the
claim ("keeps only templates whose storage size is exactly 10 GiB", hence
image-not-found here) demands failure. -/
theorem image_size_counterexample :
    findTemplate (goToLower "Custom Appliance")
      [{ name := "Custom Appliance", size := 10 * 2 ^ 30 + 1, id := some 7, details := [] }]
      = some { name := "Custom Appliance", size := 10 * 2 ^ 30 + 1, id := some 7, details := [] }
  ∧ resolveImage "Custom Appliance"
      [{ name := "Custom Appliance", size := 10 * 2 ^ 30 + 1, id := some 7, details := [] }]
      = .ok { name := "Custom Appliance", size := 10 * 2 ^ 30 + 1, id := some 7, details := [] }
  ∧ (10 * 2 ^ 30 + 1 : Nat) ≠ 10 * 2 ^ 30 :=
  ⟨rfl, rfl, by decide⟩

/-- C1 amended: image resolution lists featured templates in the resolved
zone and selects the first template whose storage size lies in
[10 GiB, 11 GiB) (i.e. `size >>> 30 = 10`) and whose lowercased full name
— or whose shorthand, derived from a name matching
`Linux <Name> <Version>` by lowercasing the name, replacing spaces with
dashes and appending the version — equals the lowercased configured image
name; if no template matches, Create fails with the image-not-found
error.  The last two conjuncts exhibit the shorthand derivation on
concrete template names (lowercasing, space-to-dash, appended version). -/
theorem image_resolution_spec (dImage : String) (ts : List Template) :
    findTemplate (goToLower dImage) ts = ts.find? (imageMatches (goToLower dImage))
  ∧ (ts.find? (imageMatches (goToLower dImage)) = none →
      resolveImage dImage ts = .error (.other (imageNotFoundMsg dImage)))
  ∧ linuxShorthand "Linux Ubuntu 18.04 LTS 64-bit" = some "ubuntu-18.04"
  ∧ linuxShorthand "Linux RedHat Enterprise 7.5 64-bit" = some "redhat-enterprise-7.5" := by
  refine ⟨findTemplate_eq_find _ ts, fun h => ?_, rfl, rfl⟩
  unfold resolveImage
  rw [findTemplate_eq_find, h]

/-- C1 witness: the amended statement applied at an image name no
template matches. -/
theorem image_resolution_spec_witness :
    resolveImage "no-such-image" [ubuntuTemplate]
      = .error (.other (imageNotFoundMsg "no-such-image")) :=
  (image_resolution_spec "no-such-image" [ubuntuTemplate]).2.1 rfl

/-! ### Claim C5 — Remove teardown -/

/-- Does an event list contain a security- or affinity-group deletion? -/
def hasGroupDelete : List Event → Bool
  | [] => false
  | Event.deleteSecurityGroup _ :: _ => true
  | Event.deleteAffinityGroup _ :: _ => true
  | _ :: rest => hasGroupDelete rest

/-- The request trace of `Remove` always has one of four shapes: nothing;
just the key-pair deletion; just the VM deletion; or the key-pair deletion
followed by the VM deletion. -/
theorem remove_shape (w : RemoveWorld) (d : Driver) :
    (Remove w d).2 = []
  ∨ (Remove w d).2 = [Event.deleteSSHKeyPair d.keyPair]
  ∨ (∃ v, d.id = some v ∧ (Remove w d).2 = [Event.deleteVirtualMachine v])
  ∨ (∃ v, d.id = some v ∧ (Remove w d).2 =
      [Event.deleteSSHKeyPair d.keyPair, Event.deleteVirtualMachine v]) := by
  by_cases hk2 : d.keyPair = ""
  · have hb : (d.keyPair == "") = true := by simp [hk2]
    cases hid : d.id with
    | none => left; simp [Remove, hb, hid]
    | some v =>
      cases hv : w.deleteVirtualMachine v with
      | none =>
        right; right; left
        exact ⟨v, rfl, by simp [Remove, hb, hid, hv]⟩
      | some e2 =>
        right; right; left
        exact ⟨v, rfl, by simp [Remove, hb, hid, hv]⟩
  · have hb : (d.keyPair == "") = false := by simp [hk2]
    cases hx : w.deleteSSHKeyPair d.keyPair with
    | some e2 => right; left; simp [Remove, hb, hx]
    | none =>
      cases hid : d.id with
      | none => right; left; simp [Remove, hb, hx, hid]
      | some v =>
        cases hv : w.deleteVirtualMachine v with
        | none =>
          right; right; right
          exact ⟨v, rfl, by simp [Remove, hb, hx, hid, hv]⟩
        | some e2 =>
          right; right; right
          exact ⟨v, rfl, by simp [Remove, hb, hx, hid, hv]⟩

/-- C5: with a tracked key pair whose deletion fails, `Remove` returns
that error and its trace is the key-pair deletion alone — the VM deletion
is never attempted; moreover (for every world and record) the key-pair
deletion always precedes any VM deletion in the trace, and `Remove` never
issues a security- or affinity-group deletion. -/
theorem remove_keypair_failure_aborts (w : RemoveWorld) (d : Driver) (e : GoError)
    (hk : d.keyPair ≠ "") (he : w.deleteSSHKeyPair d.keyPair = some e) :
    Remove w d = (some e, [Event.deleteSSHKeyPair d.keyPair])
  ∧ (∀ w2 d2, hasGroupDelete (Remove w2 d2).2 = false)
  ∧ (∀ w2 d2, (Remove w2 d2).2 = []
      ∨ (Remove w2 d2).2 = [Event.deleteSSHKeyPair d2.keyPair]
      ∨ (∃ v, d2.id = some v ∧ (Remove w2 d2).2 = [Event.deleteVirtualMachine v])
      ∨ (∃ v, d2.id = some v ∧ (Remove w2 d2).2 =
          [Event.deleteSSHKeyPair d2.keyPair, Event.deleteVirtualMachine v])) := by
  refine ⟨?_, ?_, fun w2 d2 => remove_shape w2 d2⟩
  · have hb : (d.keyPair == "") = false := by simp [hk]
    simp [Remove, hb, he]
  · intro w2 d2
    rcases remove_shape w2 d2 with h | h | ⟨v, _, h⟩ | ⟨v, _, h⟩ <;>
      rw [h] <;> rfl

/-- C5 witness: a record tracking both a key pair and a VM, where key-pair
deletion fails. -/
theorem remove_keypair_failure_aborts_witness :
    Remove
      { deleteSSHKeyPair := fun _ => some (.other "keypair delete failed"),
        deleteVirtualMachine := fun _ => none }
      { baseDriver with keyPair := "docker-machine-mach", id := some 9 }
      = (some (.other "keypair delete failed"), [Event.deleteSSHKeyPair "docker-machine-mach"]) :=
  (remove_keypair_failure_aborts
    { deleteSSHKeyPair := fun _ => some (.other "keypair delete failed"),
      deleteVirtualMachine := fun _ => none }
    { baseDriver with keyPair := "docker-machine-mach", id := some 9 }
    (.other "keypair delete failed") (by decide) rfl).1

/-! ### Claim C2 — the affinity-group loop returns the wrong error -/

/-- C2 (bug evaluation): when the affinity-group lookup fails with an
error that is not of the `ErrorResponse` class (here a transport
timeout), the loop aborts via `return err` — the stale outer `err`, which
is necessarily nil at that point — so `Create` stops before deploying yet
returns nil (reported success): its result error is `none`, no creation
or deployment request is ever issued, and the lookup error
`.other "network timeout"` is not returned.  The claim (and the spec)
require the lookup error itself to be returned. -/
theorem affinity_lookup_error_swallowed :
    resolveAffinityGroups
      { stubWorld with getAffinityGroup := fun _ => .error (.other "network timeout") }
      none ["db-ag"]
      = (AGOutcome.earlyReturn none, [Event.getAffinityGroup "db-ag"])
  ∧ Create
      { stubWorld with getAffinityGroup := fun _ => .error (.other "network timeout") }
      { baseDriver with affinityGroups := ["db-ag"] }
      = (none, { baseDriver with affinityGroups := ["db-ag"] },
         [Event.listZones "CH-DK-2", Event.listTemplates 1, Event.listProfiles "Small",
          Event.getAffinityGroup "db-ag"]) :=
  ⟨rfl, rfl⟩

/-! ### Claim C4 — security-group resolution -/

/-- Rule submission when every authorize request succeeds: one request
per rule, in list order. -/
theorem submitRules_all_ok (w : CreateWorld) (rs : List IngressRule)
    (h : ∀ r, w.authorizeIngress r = none) :
    submitRules w rs = (none, rs.map Event.authorizeIngress) := by
  induction rs with
  | nil => rfl
  | cons r rs ih => simp [submitRules, h r, ih]

/-- Rule submission stops at the first failing rule: the rules after it
are never submitted. -/
theorem submitRules_first_failure (w : CreateWorld) (rs1 : List IngressRule)
    (r : IngressRule) (rs2 : List IngressRule) (e : GoError)
    (hok : ∀ r2 ∈ rs1, w.authorizeIngress r2 = none)
    (hf : w.authorizeIngress r = some e) :
    submitRules w (rs1 ++ r :: rs2) = (some e, (rs1 ++ [r]).map Event.authorizeIngress) := by
  induction rs1 with
  | nil => simp [submitRules, hf]
  | cons a rs1 ih =>
    have ha : w.authorizeIngress a = none := hok a (List.mem_cons_self a rs1)
    have ih2 := ih (fun r2 hr2 => hok r2 (List.mem_cons_of_mem a hr2))
    simp [submitRules, ha, ih2]

/-- C4: security-group resolution processes the configured names in
order, skipping empty names and preserving input order in the ID list
(conjunct 1); a created group carries exactly the eight default rules,
spelled out here field by field (conjunct 2), each submitted as a
separate request in order (conjunct 3), with the first rule failure
aborting the remaining rules (conjunct 4); a not-found lookup creates the
group and uses its ID in place (conjunct 5); any other lookup error, or a
failure while creating the group, aborts resolution with that error
(conjuncts 6 and 7); and a resolution error aborts the whole `Create`
call with that error (conjunct 8). -/
theorem securityGroup_resolution_spec :
    (∀ w names f, (∀ g, w.getSecurityGroup g = .ok (f g)) →
       (resolveSecurityGroups w names).1 = .ok ((names.filter (fun g => g != "")).map f))
  ∧ (∀ gid, defaultSecurityGroupRules gid =
      [⟨gid, "SSH", ["0.0.0.0/0", "::/0"], "TCP", 22, 22, 0, 0, []⟩,
       ⟨gid, "Ping", ["0.0.0.0/0"], "ICMP", 0, 0, 8, 0, []⟩,
       ⟨gid, "Ping6", ["::/0"], "ICMPv6", 0, 0, 128, 0, []⟩,
       ⟨gid, "Docker", ["0.0.0.0/0", "::/0"], "TCP", 2376, 2377, 0, 0, []⟩,
       ⟨gid, "Legacy Standalone Swarm", ["0.0.0.0/0", "::/0"], "TCP", 3376, 3377, 0, 0, []⟩,
       ⟨gid, "Communication among nodes", [], "TCP", 7946, 7946, 0, 0, [gid]⟩,
       ⟨gid, "Communication among nodes", [], "UDP", 7946, 7946, 0, 0, [gid]⟩,
       ⟨gid, "Overlay network traffic", [], "UDP", 4789, 4789, 0, 0, [gid]⟩])
  ∧ (∀ w g gid, w.createSecurityGroup g createdByDescription = .ok gid →
       (∀ r, w.authorizeIngress r = none) →
       createDefaultSecurityGroup w g =
         (.ok gid, Event.createSecurityGroup g createdByDescription
            :: (defaultSecurityGroupRules gid).map Event.authorizeIngress))
  ∧ (∀ w g gid rs1 r rs2 e, w.createSecurityGroup g createdByDescription = .ok gid →
       defaultSecurityGroupRules gid = rs1 ++ r :: rs2 →
       (∀ r2 ∈ rs1, w.authorizeIngress r2 = none) →
       w.authorizeIngress r = some e →
       createDefaultSecurityGroup w g =
         (.error e, Event.createSecurityGroup g createdByDescription
            :: (rs1 ++ [r]).map Event.authorizeIngress))
  ∧ (∀ w g gs msg gid evs, g ≠ "" →
       w.getSecurityGroup g = .error (.errorResponse msg) →
       createDefaultSecurityGroup w g = (.ok gid, evs) →
       (resolveSecurityGroups w (g :: gs)).1 =
         Except.map (fun ids => gid :: ids) (resolveSecurityGroups w gs).1)
  ∧ (∀ w g gs msg, g ≠ "" →
       w.getSecurityGroup g = .error (.other msg) →
       resolveSecurityGroups w (g :: gs) = (.error (.other msg), [Event.getSecurityGroup g]))
  ∧ (∀ w g gs msg e evs, g ≠ "" →
       w.getSecurityGroup g = .error (.errorResponse msg) →
       createDefaultSecurityGroup w g = (.error e, evs) →
       (resolveSecurityGroups w (g :: gs)).1 = .error e)
  ∧ (∀ w d zs zid tpls tpl prs pid e,
       d.userDataFile = "" →
       w.listZones d.availabilityZone = .ok zs →
       resolveZone d.availabilityZone zs = .ok zid →
       w.listTemplates zid = .ok tpls →
       resolveImage d.image tpls = .ok tpl →
       w.listProfiles d.instanceProfile = .ok prs →
       resolveProfile d.instanceProfile prs = .ok pid →
       (resolveSecurityGroups w d.securityGroups).1 = .error e →
       (Create w d).1 = some e) := by
  refine ⟨?_, fun gid => rfl, ?_, ?_, ?_, ?_, ?_, ?_⟩
  · intro w names f hget
    induction names with
    | nil => rfl
    | cons g gs ih =>
      by_cases hg : (g == "") = true
      · have hgs : (g != "") = false := by simp [bne, hg]
        simp [resolveSecurityGroups, hg, List.filter_cons, hgs, ih]
      · have hg' : (g == "") = false := by simpa using hg
        have hgs : (g != "") = true := by simp [bne, hg']
        rcases hrec : resolveSecurityGroups w gs with ⟨r, evs⟩
        have hr : r = .ok ((gs.filter (fun g2 => g2 != "")).map f) := by
          have := ih; rw [hrec] at this; exact this
        subst hr
        simp [resolveSecurityGroups, hg', hget g, hrec, List.filter_cons, hgs]
  · intro w g gid hcreate hauth
    simp [createDefaultSecurityGroup, hcreate, submitRules_all_ok w _ hauth]
  · intro w g gid rs1 r rs2 e hcreate hrules hok hf
    simp [createDefaultSecurityGroup, hcreate, hrules,
          submitRules_first_failure w rs1 r rs2 e hok hf]
  · intro w g gs msg gid evs hg hget hcd
    have hg' : (g == "") = false := by simp [hg]
    rcases hrec : resolveSecurityGroups w gs with ⟨r, evs2⟩
    cases r with
    | ok ids => simp [resolveSecurityGroups, hg', hget, hcd, hrec, Except.map]
    | error e2 => simp [resolveSecurityGroups, hg', hget, hcd, hrec, Except.map]
  · intro w g gs msg hg hget
    have hg' : (g == "") = false := by simp [hg]
    simp [resolveSecurityGroups, hg', hget]
  · intro w g gs msg e evs hg hget hcd
    have hg' : (g == "") = false := by simp [hg]
    simp [resolveSecurityGroups, hg', hget, hcd]
  · intro w d zs zid tpls tpl prs pid e h0 h1 h2 h3 h4 h5 h6 h7
    have h0' : (d.userDataFile == "") = true := by simp [h0]
    cases hu : tpl.details.lookup "username" with
    | none =>
      rcases hsgp : resolveSecurityGroups w d.securityGroups with ⟨r, evs⟩
      have hr : r = .error e := by have := h7; rw [hsgp] at this; exact this
      subst hr
      simp [Create, getCloudInit, h0', h1, h2, h3, h4, h5, h6, hu, hsgp]
    | some u =>
      rcases hsgp : resolveSecurityGroups w d.securityGroups with ⟨r, evs⟩
      have hr : r = .error e := by have := h7; rw [hsgp] at this; exact this
      subst hr
      simp [Create, getCloudInit, h0', h1, h2, h3, h4, h5, h6, hu, hsgp]

/-- C4 witness: order preservation with empty-name skipping at found
lookups, and the full default creation trace at a concrete group name. -/
theorem securityGroup_resolution_spec_witness :
    (resolveSecurityGroups stubWorld ["docker-machine", "", "extra"]).1 = .ok [10, 10]
  ∧ createDefaultSecurityGroup stubWorld "docker-machine"
      = (.ok 11, Event.createSecurityGroup "docker-machine" createdByDescription
          :: (defaultSecurityGroupRules 11).map Event.authorizeIngress) := by
  constructor
  · exact securityGroup_resolution_spec.1 stubWorld ["docker-machine", "", "extra"]
      (fun _ => 10) (fun g => rfl)
  · exact securityGroup_resolution_spec.2.2.1 stubWorld "docker-machine" 11 rfl (fun r => rfl)

/-! ### Claim C7 — SSH key import -/

/-- C7: with a configured SSH key path starting with `~/`, the credential
step reads `<home>/<rest>.pub`, appends its contents to the cloud-init
payload under an `ssh_authorized_keys` list entry, copies the private key
to the per-host store path and restricts it to mode 0600 (owner
read/write), leaving the driver record — in particular the key-pair name
— unchanged (conjunct 1); on any successful import the key-pair name
equals what it was before, so no provider-side key-pair name is recorded
(conjunct 2); a path without the `~/` prefix is made absolute instead
(conjunct 3). -/
theorem import_ssh_key_spec (w : CreateWorld) (d : Driver) (ci pub : String)
    (hne : d.sshKey ≠ "")
    (hpre : beginsWith "~/".toList d.sshKey.toList = true)
    (hread : w.readFile (w.homeDir ++ "/" ++ goDrop d.sshKey 2 ++ ".pub") = .ok pub)
    (hcopy : w.copyFile (w.homeDir ++ "/" ++ goDrop d.sshKey 2)
        (getSSHKeyPath d.storePath d.machineName) = none)
    (hchmod : w.chmod (getSSHKeyPath d.storePath d.machineName) 0o600 = none) :
    sshCredentialStep w d ci =
      (.ok (d, ci ++ "\nssh_authorized_keys:\n- " ++ pub),
       [Event.readFile (w.homeDir ++ "/" ++ goDrop d.sshKey 2 ++ ".pub"),
        Event.copyFile (w.homeDir ++ "/" ++ goDrop d.sshKey 2)
          (getSSHKeyPath d.storePath d.machineName),
        Event.chmod (getSSHKeyPath d.storePath d.machineName) 0o600])
  ∧ (∀ w2 d2 ci2 d3 ci3, d2.sshKey ≠ "" →
        (sshCredentialStep w2 d2 ci2).1 = .ok (d3, ci3) → d3.keyPair = d2.keyPair)
  ∧ (∀ w2 d2 ci2 p pub2, d2.sshKey ≠ "" →
        beginsWith "~/".toList d2.sshKey.toList = false →
        w2.absPath d2.sshKey = .ok p →
        w2.readFile (p ++ ".pub") = .ok pub2 →
        w2.copyFile p (getSSHKeyPath d2.storePath d2.machineName) = none →
        w2.chmod (getSSHKeyPath d2.storePath d2.machineName) 0o600 = none →
        sshCredentialStep w2 d2 ci2 =
          (.ok (d2, ci2 ++ "\nssh_authorized_keys:\n- " ++ pub2),
           [Event.readFile (p ++ ".pub"),
            Event.copyFile p (getSSHKeyPath d2.storePath d2.machineName),
            Event.chmod (getSSHKeyPath d2.storePath d2.machineName) 0o600])) := by
  refine ⟨?_, ?_, ?_⟩
  · have hk : (d.sshKey == "") = false := by simp [hne]
    have hpre' : beginsWith ['~', '/'] d.sshKey.data = true := hpre
    simp [sshCredentialStep, hk, hpre', hread, hcopy, hchmod, sshAuthorizedKeysBlock]
  · intro w2 d2 ci2 d3 ci3 hne2 h
    have hk2 : (d2.sshKey == "") = false := by simp [hne2]
    unfold sshCredentialStep at h
    simp only [hk2, Bool.false_eq_true, if_false] at h
    repeat' split at h
    all_goals first
      | (injection h with hh; injection hh with h1 h2; rw [← h1])
      | injection h
  · intro w2 d2 ci2 p pub2 hne2 hpre2 habs hread2 hcopy2 hchmod2
    have hk2 : (d2.sshKey == "") = false := by simp [hne2]
    have hpre2' : beginsWith ['~', '/'] d2.sshKey.data = false := hpre2
    simp [sshCredentialStep, hk2, hpre2', habs, hread2, hcopy2, hchmod2,
          sshAuthorizedKeysBlock]

/-- C7 witness: importing `~/.ssh/id_rsa` with home directory `/home/u`
reads `/home/u/.ssh/id_rsa.pub`, appends the key to the payload, copies
the private key to the per-host path and chmods it to 0600, and records
no key-pair name. -/
theorem import_ssh_key_spec_witness :
    sshCredentialStep stubWorld { baseDriver with sshKey := "~/.ssh/id_rsa" } defaultCloudInit
      = (.ok ({ baseDriver with sshKey := "~/.ssh/id_rsa" },
              defaultCloudInit ++ "\nssh_authorized_keys:\n- " ++ "FILE-CONTENT"),
         [Event.readFile "/home/u/.ssh/id_rsa.pub",
          Event.copyFile "/home/u/.ssh/id_rsa" "/store/machines/mach/id_rsa",
          Event.chmod "/store/machines/mach/id_rsa" 0o600]) :=
  (import_ssh_key_spec stubWorld { baseDriver with sshKey := "~/.ssh/id_rsa" }
    defaultCloudInit "FILE-CONTENT" (by decide) (by decide) rfl rfl rfl).1

/-! ### Claim C8 — post-create key-pair cleanup -/

/-- Is an event one of the post-create cleanup steps (the SSH
reachability wait or the provider-side key-pair deletion)? -/
def isPostEvent : Event → Bool
  | Event.waitForSSH => true
  | Event.deleteSSHKeyPair _ => true
  | _ => false

/-- Is an event list free of post-create cleanup steps? -/
def noPostEvents (evs : List Event) : Bool :=
  evs.all fun ev => !isPostEvent ev

theorem noPostEvents_append (a b : List Event) :
    noPostEvents (a ++ b) = (noPostEvents a && noPostEvents b) := by
  simp [noPostEvents, List.all_append]

theorem noPostEvents_cons (ev : Event) (evs : List Event) :
    noPostEvents (ev :: evs) = (!isPostEvent ev && noPostEvents evs) := by
  simp [noPostEvents]

theorem submitRules_noPost (w : CreateWorld) (rs : List IngressRule) :
    noPostEvents (submitRules w rs).2 = true := by
  induction rs with
  | nil => rfl
  | cons r rs ih =>
    unfold submitRules
    cases h : w.authorizeIngress r with
    | some e => simp [noPostEvents, isPostEvent]
    | none =>
      rcases hp : submitRules w rs with ⟨res, evs⟩
      rw [hp] at ih
      simp [noPostEvents_cons, isPostEvent]
      exact ih

theorem createDefaultSecurityGroup_noPost (w : CreateWorld) (g : String) :
    noPostEvents (createDefaultSecurityGroup w g).2 = true := by
  unfold createDefaultSecurityGroup
  cases hc : w.createSecurityGroup g createdByDescription with
  | error e => simp [noPostEvents, isPostEvent]
  | ok gid =>
    rcases hs : submitRules w (defaultSecurityGroupRules gid) with ⟨res, evs⟩
    have hnp := submitRules_noPost w (defaultSecurityGroupRules gid)
    rw [hs] at hnp
    cases res <;> simp [hs, noPostEvents_cons, isPostEvent] <;> exact hnp

theorem resolveSecurityGroups_noPost (w : CreateWorld) (gs : List String) :
    noPostEvents (resolveSecurityGroups w gs).2 = true := by
  induction gs with
  | nil => rfl
  | cons g gs ih =>
    unfold resolveSecurityGroups
    by_cases hg : (g == "") = true
    · simpa [hg] using ih
    · have hg2 : (g == "") = false := by simpa using hg
      rw [hg2]
      simp only [Bool.false_eq_true, if_false]
      cases hget : w.getSecurityGroup g with
      | ok gid =>
        rcases hrec : resolveSecurityGroups w gs with ⟨r, evs⟩
        rw [hrec] at ih
        cases r <;> simp [hrec, noPostEvents_cons, isPostEvent] <;> exact ih
      | error ge =>
        cases ge with
        | errorResponse msg =>
          rcases hcd : createDefaultSecurityGroup w g with ⟨rc, evsc⟩
          have hc := createDefaultSecurityGroup_noPost w g
          rw [hcd] at hc
          cases rc with
          | error ce =>
            simp [hcd, noPostEvents_cons, isPostEvent]
            exact hc
          | ok gid =>
            rcases hrec : resolveSecurityGroups w gs with ⟨r, evs⟩
            rw [hrec] at ih
            cases r <;>
              simp [hcd, hrec, noPostEvents_cons, noPostEvents_append, isPostEvent] <;>
              exact ⟨hc, ih⟩
        | other msg => simp [noPostEvents, isPostEvent]

theorem createDefaultAffinityGroup_noPost (w : CreateWorld) (g : String) :
    noPostEvents (createDefaultAffinityGroup w g).2 = true := by
  unfold createDefaultAffinityGroup
  cases hc : w.createAffinityGroup g defaultAffinityGroupType createdByDescription <;>
    simp [noPostEvents, isPostEvent]

theorem resolveAffinityGroups_noPost (w : CreateWorld) (se : Option GoError)
    (gs : List String) :
    noPostEvents (resolveAffinityGroups w se gs).2 = true := by
  induction gs with
  | nil => rfl
  | cons g gs ih =>
    unfold resolveAffinityGroups
    by_cases hg : (g == "") = true
    · simpa [hg] using ih
    · have hg2 : (g == "") = false := by simpa using hg
      rw [hg2]
      simp only [Bool.false_eq_true, if_false]
      cases hget : w.getAffinityGroup g with
      | ok gid =>
        rcases hrec : resolveAffinityGroups w se gs with ⟨r, evs⟩
        rw [hrec] at ih
        cases r <;> simp [hrec, noPostEvents_cons, isPostEvent] <;> exact ih
      | error ge =>
        cases ge with
        | errorResponse msg =>
          rcases hcd : createDefaultAffinityGroup w g with ⟨rc, evsc⟩
          have hc := createDefaultAffinityGroup_noPost w g
          rw [hcd] at hc
          cases rc with
          | error ce =>
            simp [hcd, noPostEvents_cons, isPostEvent]
            exact hc
          | ok gid =>
            rcases hrec : resolveAffinityGroups w se gs with ⟨r, evs⟩
            rw [hrec] at ih
            cases r <;>
              simp [hcd, hrec, noPostEvents_cons, noPostEvents_append, isPostEvent] <;>
              exact ⟨hc, ih⟩
        | other msg => simp [noPostEvents, isPostEvent]

theorem getCloudInit_noPost (w : CreateWorld) (d : Driver) :
    noPostEvents (getCloudInit w d).2 = true := by
  unfold getCloudInit
  by_cases hf : (d.userDataFile == "") = true
  · simp [hf, noPostEvents]
  · have hf2 : (d.userDataFile == "") = false := by simpa using hf
    rw [hf2]
    simp only [Bool.false_eq_true, if_false]
    cases hr : w.readFile d.userDataFile <;> simp [noPostEvents, isPostEvent]

theorem sshCredentialStep_noPost (w : CreateWorld) (d : Driver) (ci : String) :
    noPostEvents (sshCredentialStep w d ci).2 = true := by
  unfold sshCredentialStep
  by_cases hk : (d.sshKey == "") = true
  · simp only [hk, if_true]
    cases hc : w.createSSHKeyPair ("docker-machine-" ++ d.machineName) with
    | error e => simp [hc, noPostEvents, isPostEvent]
    | ok priv =>
      cases hm : w.mkdirAll (pathDir (getSSHKeyPath d.storePath d.machineName)) 0o750 with
      | some e => simp [hc, hm, noPostEvents, isPostEvent]
      | none =>
        cases hw : w.writeFile (getSSHKeyPath d.storePath d.machineName) priv 0o600 with
        | some e => simp [hc, hm, hw, noPostEvents, isPostEvent]
        | none => simp [hc, hm, hw, noPostEvents, isPostEvent]
  · have hk2 : (d.sshKey == "") = false := by simpa using hk
    simp only [hk2, Bool.false_eq_true, if_false]
    by_cases hb : beginsWith "~/".toList d.sshKey.toList = true
    · simp only [hb, if_true]
      cases hr : w.readFile (w.homeDir ++ "/" ++ goDrop d.sshKey 2 ++ ".pub") with
      | error e => simp [hr, noPostEvents, isPostEvent]
      | ok pub =>
        cases hcp : w.copyFile (w.homeDir ++ "/" ++ goDrop d.sshKey 2)
            (getSSHKeyPath d.storePath d.machineName) with
        | some e => simp [hr, hcp, noPostEvents, isPostEvent]
        | none =>
          cases hch : w.chmod (getSSHKeyPath d.storePath d.machineName) 0o600 with
          | some e => simp [hr, hcp, hch, noPostEvents, isPostEvent]
          | none => simp [hr, hcp, hch, noPostEvents, isPostEvent]
    · have hb2 : beginsWith "~/".toList d.sshKey.toList = false := by simpa using hb
      simp only [hb2, Bool.false_eq_true, if_false]
      cases ha : w.absPath d.sshKey with
      | error e => simp [ha, noPostEvents]
      | ok p =>
        cases hr : w.readFile (p ++ ".pub") with
        | error e => simp [ha, hr, noPostEvents, isPostEvent]
        | ok pub =>
          cases hcp : w.copyFile p (getSSHKeyPath d.storePath d.machineName) with
          | some e => simp [ha, hr, hcp, noPostEvents, isPostEvent]
          | none =>
            cases hch : w.chmod (getSSHKeyPath d.storePath d.machineName) 0o600 with
            | some e => simp [ha, hr, hcp, hch, noPostEvents, isPostEvent]
            | none => simp [ha, hr, hcp, hch, noPostEvents, isPostEvent]

theorem getCloudInit_ok_driver (w : CreateWorld) (d d1 : Driver) (ci : String)
    (evs : List Event) (h : getCloudInit w d = (.ok (d1, ci), evs)) :
    d1.sshKey = d.sshKey ∧ d1.keyPair = d.keyPair := by
  unfold getCloudInit at h
  by_cases hf : (d.userDataFile == "") = true
  · rw [hf] at h
    simp only [if_true] at h
    injection h with h1 h2
    injection h1 with h3
    injection h3 with h4 h5
    rw [← h4]
    exact ⟨rfl, rfl⟩
  · have hf' : (d.userDataFile == "") = false := by simpa using hf
    rw [hf'] at h
    simp only [Bool.false_eq_true, if_false] at h
    cases hr : w.readFile d.userDataFile with
    | error e => rw [hr] at h; injection h with h1 h2; exact absurd h1 (by simp)
    | ok content =>
      rw [hr] at h
      injection h with h1 h2
      injection h1 with h3
      injection h3 with h4 h5
      rw [← h4]
      exact ⟨rfl, rfl⟩

theorem sshCredentialStep_import_driver (w : CreateWorld) (d d3 : Driver)
    (ci ci3 : String) (hne : d.sshKey ≠ "")
    (h : (sshCredentialStep w d ci).1 = .ok (d3, ci3)) : d3 = d := by
  have hk : (d.sshKey == "") = false := by simp [hne]
  unfold sshCredentialStep at h
  simp only [hk, Bool.false_eq_true, if_false] at h
  repeat' split at h
  all_goals first
    | (injection h with hh; injection hh with h1 h2; exact h1.symm)
    | injection h

theorem postCleanup_empty (w : CreateWorld) (d : Driver) (h : d.keyPair = "") :
    postCreateKeyPairCleanup w d = (none, d, []) := by
  have hb : (d.keyPair == "") = true := by simp [h]
  simp [postCreateKeyPairCleanup, hb]

/-- `noPostEvents` of the empty trace. -/
theorem noPostEvents_nil : noPostEvents [] = true := rfl

/-- With no key pair tracked, the deployment section issues only the
deployment request. -/
theorem deployAndCleanup_noPost (w : CreateWorld) (d4 : Driver) (req : DeployReq)
    (h : d4.keyPair = "") :
    noPostEvents (deployAndCleanup w d4 req).2.2 = true := by
  unfold deployAndCleanup
  cases hd : w.deploy req with
  | error e => simp [noPostEvents, isPostEvent]
  | ok vm =>
    rcases vm with ⟨vmid, vmip, vmpwe, vmpw⟩
    cases hip : vmip <;> cases vmpwe <;>
      simp [hip, postCleanup_empty, h, noPostEvents_nil, noPostEvents_cons, isPostEvent]

/-- With no key pair tracked, the deployment section leaves the key-pair
name empty. -/
theorem deployAndCleanup_keyPair (w : CreateWorld) (d4 : Driver) (req : DeployReq)
    (h : d4.keyPair = "") :
    (deployAndCleanup w d4 req).2.1.keyPair = "" := by
  unfold deployAndCleanup
  cases hd : w.deploy req with
  | error e => simpa using h
  | ok vm =>
    rcases vm with ⟨vmid, vmip, vmpwe, vmpw⟩
    cases hip : vmip <;> cases vmpwe <;>
      simp [hip, postCleanup_empty, h]

/-- When the SSH credential step imports a configured key (no key pair
generated) and the record tracks no key pair, `Create` never waits for
SSH, never deletes a provider-side key pair, and leaves the key-pair name
empty — whatever the provider answers. -/
theorem create_no_generation_no_cleanup (w : CreateWorld) (d : Driver)
    (hssh : d.sshKey ≠ "") (hkp : d.keyPair = "") :
    noPostEvents (Create w d).2.2 = true ∧ (Create w d).2.1.keyPair = "" := by
  rcases hgc : getCloudInit w d with ⟨r0, evs0⟩
  have hnp0 : noPostEvents evs0 = true := by
    have h := getCloudInit_noPost w d; rw [hgc] at h; exact h
  cases r0 with
  | error e => simp [Create, hgc, noPostEvents_nil, noPostEvents_cons, noPostEvents_append, isPostEvent, hnp0, hkp]
  | ok p0 =>
    rcases p0 with ⟨d1, ci0⟩
    obtain ⟨hd1s, hd1k⟩ := getCloudInit_ok_driver w d d1 ci0 evs0 hgc
    have hd1kp : d1.keyPair = "" := hd1k.trans hkp
    cases hz : w.listZones d1.availabilityZone with
    | error e => simp [Create, hgc, hz, noPostEvents_nil, noPostEvents_cons, noPostEvents_append, isPostEvent, hnp0, hd1kp, hkp, postCleanup_empty]
    | ok zs =>
      cases hrz : resolveZone d1.availabilityZone zs with
      | error e => simp [Create, hgc, hz, hrz, noPostEvents_nil, noPostEvents_cons, noPostEvents_append, isPostEvent, hnp0, hd1kp, hkp, postCleanup_empty]
      | ok zid =>
        cases ht : w.listTemplates zid with
        | error e => simp [Create, hgc, hz, hrz, ht, noPostEvents_nil, noPostEvents_cons, noPostEvents_append, isPostEvent, hnp0, hd1kp, hkp, postCleanup_empty]
        | ok tpls =>
          cases hri : resolveImage d1.image tpls with
          | error e => simp [Create, hgc, hz, hrz, ht, hri, noPostEvents_nil, noPostEvents_cons, noPostEvents_append, isPostEvent, hnp0, hd1kp, hkp, postCleanup_empty]
          | ok tpl =>
            cases hu : tpl.details.lookup "username" with
            | none =>
              cases hp : w.listProfiles d1.instanceProfile with
              | error e => simp [Create, hgc, hz, hrz, ht, hri, hu, hp, noPostEvents_nil, noPostEvents_cons, noPostEvents_append, isPostEvent, hnp0, hd1kp, hkp, postCleanup_empty]
              | ok prs =>
                cases hrp : resolveProfile d1.instanceProfile prs with
                | error e => simp [Create, hgc, hz, hrz, ht, hri, hu, hp, hrp, noPostEvents_nil, noPostEvents_cons, noPostEvents_append, isPostEvent, hnp0, hd1kp, hkp, postCleanup_empty]
                | ok pid =>
                  rcases hsg : resolveSecurityGroups w d1.securityGroups with ⟨rsg, sgEvs⟩
                  have hnpsg : noPostEvents sgEvs = true := by
                    have h := resolveSecurityGroups_noPost w d1.securityGroups
                    rw [hsg] at h; exact h
                  cases rsg with
                  | error e => simp [Create, hgc, hz, hrz, ht, hri, hu, hp, hrp, hsg, hnpsg, noPostEvents_nil, noPostEvents_cons, noPostEvents_append, isPostEvent, hnp0, hd1kp, hkp, postCleanup_empty]
                  | ok sgs =>
                    rcases hag : resolveAffinityGroups w none d1.affinityGroups with ⟨rag, agEvs⟩
                    have hnpag : noPostEvents agEvs = true := by
                      have h := resolveAffinityGroups_noPost w none d1.affinityGroups
                      rw [hag] at h; exact h
                    cases rag with
                    | earlyReturn e =>
                      simp [Create, hgc, hz, hrz, ht, hri, hu, hp, hrp, hsg, hnpsg, hag, hnpag, noPostEvents_nil, noPostEvents_cons, noPostEvents_append, isPostEvent, hnp0, hd1kp, hkp, postCleanup_empty]
                    | ok ags =>
                      rcases hss : sshCredentialStep w d1 ci0 with ⟨rss, sshEvs⟩
                      have hnpss : noPostEvents sshEvs = true := by
                        have h := sshCredentialStep_noPost w d1 ci0
                        rw [hss] at h; exact h
                      cases rss with
                      | error e =>
                        simp [Create, hgc, hz, hrz, ht, hri, hu, hp, hrp, hsg, hnpsg, hag, hnpag, hss, hnpss, noPostEvents_nil, noPostEvents_cons, noPostEvents_append, isPostEvent, hnp0, hd1kp, hkp, postCleanup_empty]
                      | ok pd =>
                        rcases pd with ⟨d3, ci1⟩
                        have hd3 : d3 = d1 := by
                          apply sshCredentialStep_import_driver w d1 d3 ci0 ci1
                          · show d1.sshKey ≠ ""
                            rw [hd1s]; exact hssh
                          · rw [hss]
                        subst hd3
                        simp [Create, hgc, hz, hrz, ht, hri, hu, hp, hrp, hsg, hnpsg, hag, hnpag, hss, hnpss,
                              deployAndCleanup_noPost, deployAndCleanup_keyPair, noPostEvents_nil, noPostEvents_cons, noPostEvents_append, isPostEvent, hnp0, hd1kp, hkp, postCleanup_empty]
            | some u =>
              cases hp : w.listProfiles d1.instanceProfile with
              | error e => simp [Create, hgc, hz, hrz, ht, hri, hu, hp, noPostEvents_nil, noPostEvents_cons, noPostEvents_append, isPostEvent, hnp0, hd1kp, hkp, postCleanup_empty]
              | ok prs =>
                cases hrp : resolveProfile d1.instanceProfile prs with
                | error e => simp [Create, hgc, hz, hrz, ht, hri, hu, hp, hrp, noPostEvents_nil, noPostEvents_cons, noPostEvents_append, isPostEvent, hnp0, hd1kp, hkp, postCleanup_empty]
                | ok pid =>
                  rcases hsg : resolveSecurityGroups w d1.securityGroups with ⟨rsg, sgEvs⟩
                  have hnpsg : noPostEvents sgEvs = true := by
                    have h := resolveSecurityGroups_noPost w d1.securityGroups
                    rw [hsg] at h; exact h
                  cases rsg with
                  | error e => simp [Create, hgc, hz, hrz, ht, hri, hu, hp, hrp, hsg, hnpsg, noPostEvents_nil, noPostEvents_cons, noPostEvents_append, isPostEvent, hnp0, hd1kp, hkp, postCleanup_empty]
                  | ok sgs =>
                    rcases hag : resolveAffinityGroups w none d1.affinityGroups with ⟨rag, agEvs⟩
                    have hnpag : noPostEvents agEvs = true := by
                      have h := resolveAffinityGroups_noPost w none d1.affinityGroups
                      rw [hag] at h; exact h
                    cases rag with
                    | earlyReturn e =>
                      simp [Create, hgc, hz, hrz, ht, hri, hu, hp, hrp, hsg, hnpsg, hag, hnpag, noPostEvents_nil, noPostEvents_cons, noPostEvents_append, isPostEvent, hnp0, hd1kp, hkp, postCleanup_empty]
                    | ok ags =>
                      rcases hss : sshCredentialStep w { d1 with sshUser := u, keyPair := "" } ci0 with ⟨rss, sshEvs⟩
                      have hnpss : noPostEvents sshEvs = true := by
                        have h := sshCredentialStep_noPost w { d1 with sshUser := u, keyPair := "" } ci0
                        rw [hss] at h; exact h
                      cases rss with
                      | error e =>
                        simp [Create, hgc, hz, hrz, ht, hri, hu, hp, hrp, hsg, hnpsg, hag, hnpag, hss, hnpss, noPostEvents_nil, noPostEvents_cons, noPostEvents_append, isPostEvent, hnp0, hd1kp, hkp, postCleanup_empty]
                      | ok pd =>
                        rcases pd with ⟨d3, ci1⟩
                        have hd3 : d3 = { d1 with sshUser := u, keyPair := "" } := by
                          apply sshCredentialStep_import_driver w { d1 with sshUser := u, keyPair := "" } d3 ci0 ci1
                          · show d1.sshKey ≠ ""
                            rw [hd1s]; exact hssh
                          · rw [hss]
                        subst hd3
                        simp [Create, hgc, hz, hrz, ht, hri, hu, hp, hrp, hsg, hnpsg, hag, hnpag, hss, hnpss,
                              deployAndCleanup_noPost, deployAndCleanup_keyPair, noPostEvents_nil, noPostEvents_cons, noPostEvents_append, isPostEvent, hnp0, hd1kp, hkp, postCleanup_empty]

/-- C8: with no SSH key path configured (key-pair generation) and every
provider call succeeding, `Create` generates the provider key pair, and
after the successful deployment it waits for SSH reachability, deletes
the provider-side key pair and clears the tracked key-pair name, so the
returned record has an empty key-pair name and the trace ends with the
deployment, the SSH wait and the key-pair deletion, in that order; and
(second conjunct) when an SSH key path is configured (no generation) and
no key pair is tracked, none of these post-create steps ever occur and
the key-pair name stays empty. -/
theorem create_generated_keypair_cleanup
    (w : CreateWorld) (d : Driver) (zs : List Zone) (zid : Nat)
    (tpls : List Template) (tpl : Template) (prs : List ServiceOffering) (pid : Nat)
    (priv : String) (vmid : Option Nat) (vmip pw : String)
    (h0 : d.userDataFile = "") (h1 : d.sshKey = "")
    (h2 : w.listZones d.availabilityZone = .ok zs)
    (h3 : resolveZone d.availabilityZone zs = .ok zid)
    (h4 : w.listTemplates zid = .ok tpls)
    (h5 : resolveImage d.image tpls = .ok tpl)
    (h6 : tpl.details = [])
    (h7 : w.listProfiles d.instanceProfile = .ok prs)
    (h8 : resolveProfile d.instanceProfile prs = .ok pid)
    (h9 : d.securityGroups = []) (h10 : d.affinityGroups = [])
    (h11 : w.createSSHKeyPair ("docker-machine-" ++ d.machineName) = .ok priv)
    (h12 : w.mkdirAll (pathDir (getSSHKeyPath d.storePath d.machineName)) 0o750 = none)
    (h13 : w.writeFile (getSSHKeyPath d.storePath d.machineName) priv 0o600 = none)
    (h14 : w.deploy
        { details := [("ip6", "true")], templateID := tpl.id, serviceOfferingID := pid,
          userData := base64Encode d.userData, zoneID := zid, name := d.machineName,
          keyPair := "docker-machine-" ++ d.machineName, displayName := d.machineName,
          rootDiskSize := d.diskSize, securityGroupIDs := [], affinityGroupIDs := [] }
        = .ok { id := vmid, ip := some vmip, passwordEnabled := false, password := pw })
    (h15 : w.waitForSSH = none)
    (h16 : w.deleteSSHKeyPair ("docker-machine-" ++ d.machineName) = none) :
    Create w d =
      (none, { d with ipAddress := vmip, id := vmid, keyPair := "" },
       [Event.listZones d.availabilityZone, Event.listTemplates zid,
        Event.listProfiles d.instanceProfile,
        Event.createSSHKeyPair ("docker-machine-" ++ d.machineName),
        Event.mkdirAll (pathDir (getSSHKeyPath d.storePath d.machineName)) 0o750,
        Event.writeFile (getSSHKeyPath d.storePath d.machineName) 0o600,
        Event.deployVirtualMachine
          { details := [("ip6", "true")], templateID := tpl.id, serviceOfferingID := pid,
            userData := base64Encode d.userData, zoneID := zid, name := d.machineName,
            keyPair := "docker-machine-" ++ d.machineName, displayName := d.machineName,
            rootDiskSize := d.diskSize, securityGroupIDs := [], affinityGroupIDs := [] },
        Event.waitForSSH,
        Event.deleteSSHKeyPair ("docker-machine-" ++ d.machineName)])
  ∧ (∀ w2 d2, d2.sshKey ≠ "" → d2.keyPair = "" →
       noPostEvents (Create w2 d2).2.2 = true ∧ (Create w2 d2).2.1.keyPair = "") := by
  refine ⟨?_, fun w2 d2 hsk hkp => create_no_generation_no_cleanup w2 d2 hsk hkp⟩
  have hud : (d.userDataFile == "") = true := by simp [h0]
  have hsk : (d.sshKey == "") = true := by simp [h1]
  have hkpne : (("docker-machine-" ++ d.machineName) == "") = false := by
    apply beq_eq_false_iff_ne.mpr
    intro hcon
    have hd := congrArg String.data hcon
    rw [String.data_append] at hd
    simp at hd
  simp [Create, getCloudInit, hud, hsk, h2, h3, h4, h5, h6, h7, h8, h9, h10,
        sshCredentialStep, h11, h12, h13, resolveSecurityGroups, resolveAffinityGroups,
        deployAndCleanup, h14, postCreateKeyPairCleanup, hkpne, h15, h16]

/-- C8 witness: a full generated-key `Create` run against the benign stub
world, ending with the wait, the key-pair deletion, and an empty tracked
key-pair name. -/
theorem create_generated_keypair_cleanup_witness :
    Create stubWorld baseDriver
      = (none, { baseDriver with ipAddress := "185.1.2.3", id := some 99, keyPair := "" },
         [Event.listZones "CH-DK-2", Event.listTemplates 1, Event.listProfiles "Small",
          Event.createSSHKeyPair "docker-machine-mach",
          Event.mkdirAll "/store/machines/mach" 0o750,
          Event.writeFile "/store/machines/mach/id_rsa" 0o600,
          Event.deployVirtualMachine
            { details := [("ip6", "true")], templateID := some 42, serviceOfferingID := 2,
              userData := base64Encode defaultCloudInit, zoneID := 1, name := "mach",
              keyPair := "docker-machine-mach", displayName := "mach",
              rootDiskSize := 50, securityGroupIDs := [], affinityGroupIDs := [] },
          Event.waitForSSH,
          Event.deleteSSHKeyPair "docker-machine-mach"]) :=
  (create_generated_keypair_cleanup stubWorld baseDriver
    [⟨"CH-DK-2", 1⟩] 1 [ubuntuTemplate] ubuntuTemplate [⟨"Small", 2⟩] 2
    "PRIVATE-KEY" (some 99) "185.1.2.3" ""
    rfl rfl rfl rfl rfl rfl rfl rfl rfl rfl rfl rfl rfl rfl rfl rfl rfl).1

end Exoscale
